import Mathlib

/-!
Shallow embedding of `src/main.py` of the CryptoBot repository: an RSS-to-channel
forwarding bot. The embedded parts are the feed fetcher `get_latest_news`, the
notifier `send_to_channel` (with the module-global dedup set `sent_news_ids`
passed as explicit state), the module-level configuration guard, and the
shutdown control flow of `main` / `on_shutdown` as an action trace.
-/

namespace CryptoBot

/-- One element of a feed entry's `media_content` list. `url = none` models a
dict that has no `'url'` key, so that `m['url']` raises `KeyError`. -/
structure MediaItem where
  url : Option String
deriving DecidableEq, Repr

/-- A parsed RSS feed entry, as accessed by `get_latest_news`:
`guid = none` models absence of the key (`entry.get('guid')` returning `None`),
and `media_content = none` models `'media_content' not in entry`. -/
structure Entry where
  guid : Option String
  link : String
  title : String
  summary : String
  media_content : Option (List MediaItem)
deriving DecidableEq, Repr

/-- The News Item dict built by `get_latest_news` and consumed by
`send_to_channel`. -/
structure NewsItem where
  title : String
  summary : String
  image_url : Option String
  id : String
deriving DecidableEq, Repr

/-- Python truthiness of an optional string: `None` and the empty string are
falsy, every other string is truthy. -/
def pyTruthyOptStr : Option String → Bool
  | none => false
  | some s => s ≠ ""

/-- The id computation `news_id = entry.get('guid') or entry.link` (line 65):
Python `or` falls through to `entry.link` when the guid is `None` (absent key)
or an empty (falsy) string. -/
def entryId (e : Entry) : String :=
  match e.guid with
  | some g => if g = "" then e.link else g
  | none => e.link

/-- The expression
`entry.media_content[0]['url'] if 'media_content' in entry else None` (line 70).
`Except.error` models the exception raised on a malformed entry: `IndexError`
when the `media_content` list is empty, `KeyError` when its first element has
no `'url'` key. -/
def entryImageUrl (e : Entry) : Except String (Option String) :=
  match e.media_content with
  | none => Except.ok none
  | some [] => Except.error "IndexError"
  | some (m :: _) =>
    match m.url with
    | none => Except.error "KeyError"
    | some u => Except.ok (some u)

/-- Whether the media access of line 70 succeeds on this entry (true when the
entry is well-formed in its media field). -/
def mediaOk (e : Entry) : Bool :=
  match entryImageUrl e with
  | Except.ok _ => true
  | Except.error _ => false

/-- Building the News Item dict of lines 67-72 for one entry; fails exactly
when the media access fails. -/
def buildNewsItem (e : Entry) : Except String NewsItem :=
  match entryImageUrl e with
  | Except.error msg => Except.error msg
  | Except.ok img => Except.ok ⟨e.title, e.summary, img, entryId e⟩

/-- The `for entry in latest_entries` loop of lines 64-72: entries whose id is
already in `sent` are skipped; for the others the item dict is built, and an
exception while building aborts the whole loop (it propagates to the
surrounding `try`). -/
def collectNews : List Entry → List String → Except String (List NewsItem)
  | [], _ => Except.ok []
  | e :: rest, sent =>
    if entryId e ∈ sent then collectNews rest sent
    else
      match buildNewsItem e with
      | Except.error msg => Except.error msg
      | Except.ok item =>
        match collectNews rest sent with
        | Except.error msg => Except.error msg
        | Except.ok tail => Except.ok (item :: tail)

/-- `get_latest_news` (lines 55-76) over an explicit parse result and dedup
state. `parse = Except.error` models `feedparser.parse` raising; the body's
exceptions (parse or per-entry media access) are caught by the surrounding
handler, which logs and returns `[]`, so the function is total and never
raises to its caller. -/
def get_latest_news (parse : Except String (List Entry)) (sent : List String) :
    List NewsItem :=
  match parse with
  | Except.error _ => []
  | Except.ok entries =>
    if entries.isEmpty then []
    else
      match collectNews (entries.take 3) sent with
      | Except.error _ => []
      | Except.ok items => items

/-- The fetch contract read literally from the spec sentence "ordered sequence
of up to 3 most-recent News Items not already in the Dedup Set": among the
feed entries whose ids are absent from the dedup set, the at-most-3 newest,
in feed order. Used only to compare the spec's words against
`get_latest_news`. -/
def specFetch (entries : List Entry) (sent : List String) : List NewsItem :=
  ((entries.filter (fun e => decide (entryId e ∉ sent))).take 3).filterMap
    (fun e => (buildNewsItem e).toOption)

/-- A platform send performed by `send_to_channel`: `send_photo` with a photo
url and caption, or `send_message` with a text. The channel argument is the
same constant in every call and is omitted. -/
inductive SendAction where
  | photo (url : String) (caption : String)
  | message (text : String)
deriving DecidableEq, Repr

/-- The observable outcome of one `send_to_channel` call: the dedup set after
the call, the platform sends attempted, and whether a send error was logged. -/
structure SendResult where
  sent : List String
  actions : List SendAction
  errorLogged : Bool
deriving DecidableEq, Repr

/-- The caption `f"{news_item['title']}\n\n{news_item['summary']}"` (line 85). -/
def sendCaption (item : NewsItem) : String :=
  item.title ++ "\n\n" ++ item.summary

/-- The branch `if news_item['image_url']:` (lines 88-91), with Python
truthiness: `None` and the empty string select `send_message`, a non-empty
url selects `send_photo`. -/
def sendActionFor (item : NewsItem) : SendAction :=
  match item.image_url with
  | some u => if u = "" then SendAction.message (sendCaption item)
              else SendAction.photo u (sendCaption item)
  | none => SendAction.message (sendCaption item)

/-- `send_to_channel` (lines 79-94) as a state transition over the dedup set.
`sendOk` models whether the platform call succeeds; a failure is caught and
logged (`errorLogged`), the function returns normally either way, and the id
was already added to the set before the attempt (line 84), so the state
change is never rolled back. -/
def send_to_channel (item : NewsItem) (sent : List String) (sendOk : Bool) :
    SendResult :=
  if item.id ∈ sent then ⟨sent, [], false⟩
  else ⟨item.id :: sent, [sendActionFor item], !sendOk⟩

/-- The startup configuration read from the environment: `TELEGRAM_TOKEN`,
`CHANNEL_ID`, `WEBHOOK_URL`; `none` models an unset variable. -/
structure Config where
  token : Option String
  channel : Option String
  webhookUrl : Option String
deriving DecidableEq, Repr

/-- Actions the module performs after the configuration guard, in order; all
of them (bot construction included) are only reached when the guard passes. -/
inductive StartupAction where
  | botInit
  | setWebhook
  | getMe
deriving DecidableEq, Repr

/-- Outcome of module-level evaluation: `exit c` models `exit(c)`. -/
inductive StartupOutcome where
  | exit (code : Nat)
  | proceed
deriving DecidableEq, Repr

/-- The module-level guard of lines 31-33:
`if not all([API_TOKEN, CHANNEL_ID, BASE_WEBHOOK_URL]): exit(1)`, with Python
truthiness of the three optional strings. -/
def configGuard (cfg : Config) : StartupOutcome :=
  if pyTruthyOptStr cfg.token && pyTruthyOptStr cfg.channel
      && pyTruthyOptStr cfg.webhookUrl
  then StartupOutcome.proceed
  else StartupOutcome.exit 1

/-- Module-level evaluation around the guard: the guard runs first (lines
31-33); only when it passes are the bot constructed (line 36) and, later, any
network calls reached. The second component lists the actions performed. -/
def moduleStartup (cfg : Config) : StartupOutcome × List StartupAction :=
  match configGuard cfg with
  | StartupOutcome.exit c => (StartupOutcome.exit c, [])
  | StartupOutcome.proceed =>
    (StartupOutcome.proceed, [StartupAction.botInit, StartupAction.setWebhook,
      StartupAction.getMe])

/-- Environment of one run of `main` (lines 136-194): which of its fallible
steps succeed. `portFree` is the `check_port_availability` result,
`bindOk` the `sock.bind` of line 163, `siteStartOk` the `site.start()` of
line 177, `startupOk` the `on_startup` call of line 185 (set_webhook /
get_me). In the remaining case the app runs until cancelled. -/
structure RunEnv where
  portFree : Bool
  bindOk : Bool
  siteStartOk : Bool
  startupOk : Bool
deriving DecidableEq, Repr

/-- Observable actions of `main` and `on_shutdown` relevant to shutdown. -/
inductive RunAction where
  | deleteWebhook
  | closeSession
  | schedulerShutdown
  | siteStop
deriving DecidableEq, Repr

/-- The body of `on_shutdown` (lines 116-128), fired by `runner.cleanup()`:
`delete_webhook` is attempted (its own failure is caught and only logged, so
the attempt happens regardless), then the session is closed and the
scheduler stopped. -/
def on_shutdown_actions : List RunAction :=
  [RunAction.deleteWebhook, RunAction.closeSession, RunAction.schedulerShutdown]

/-- The shutdown-relevant trace of one run of `main` (lines 136-194):
if the port check fails, `main` returns at line 140 before the app exists;
if `sock.bind` fails, `main` raises at line 170 before the runner exists;
if `site.start()` fails, `runner.cleanup()` at line 181 fires `on_shutdown`
and `main` re-raises; if `on_startup` raises at line 185, the exception
propagates out of `main` without any cleanup (the `try`/`finally` of lines
188-194 has not been entered); otherwise the app runs until the wait is
cancelled and the `finally` runs `site.stop()` then `runner.cleanup()`,
which fires `on_shutdown`. -/
def mainTrace (env : RunEnv) : List RunAction :=
  if !env.portFree then []
  else if !env.bindOk then []
  else if !env.siteStartOk then on_shutdown_actions
  else if !env.startupOk then []
  else RunAction.siteStop :: on_shutdown_actions

/-- Number of `delete_webhook` attempts in one run of `main`. -/
def deleteWebhookCount (env : RunEnv) : Nat :=
  (mainTrace env).count RunAction.deleteWebhook

/-- Unfolding `get_latest_news` on a failed parse. -/
theorem get_latest_news_error (msg : String) (sent : List String) :
    get_latest_news (Except.error msg) sent = [] := rfl

/-- Unfolding `get_latest_news` on an empty feed. -/
theorem get_latest_news_ok_nil (sent : List String) :
    get_latest_news (Except.ok []) sent = [] := rfl

/-- Unfolding `get_latest_news` on a non-empty feed. -/
theorem get_latest_news_ok_cons (a : Entry) (l : List Entry) (sent : List String) :
    get_latest_news (Except.ok (a :: l)) sent =
      match collectNews ((a :: l).take 3) sent with
      | Except.error _ => []
      | Except.ok items => items := rfl

/-- Unfolding `get_latest_news` when the loop raises. -/
theorem get_latest_news_loop_error (a : Entry) (l : List Entry)
    (sent : List String) (msg : String)
    (hc : collectNews ((a :: l).take 3) sent = Except.error msg) :
    get_latest_news (Except.ok (a :: l)) sent = [] := by
  rw [get_latest_news_ok_cons, hc]

/-- Unfolding `get_latest_news` when the loop succeeds. -/
theorem get_latest_news_loop_ok (a : Entry) (l : List Entry)
    (sent : List String) (items : List NewsItem)
    (hc : collectNews ((a :: l).take 3) sent = Except.ok items) :
    get_latest_news (Except.ok (a :: l)) sent = items := by
  rw [get_latest_news_ok_cons, hc]

/-- A successfully built item carries the id computed by `entryId`. -/
theorem buildNewsItem_id (e : Entry) (it : NewsItem)
    (h : buildNewsItem e = Except.ok it) : it.id = entryId e := by
  unfold buildNewsItem at h
  cases himg : entryImageUrl e with
  | error msg => rw [himg] at h; exact Except.noConfusion h
  | ok img =>
    rw [himg] at h
    injection h with h'
    subst h'
    rfl

/-- Every item produced by the fetch loop has an id outside the dedup set. -/
theorem mem_collectNews_notSent :
    ∀ (l : List Entry) (sent : List String) (r : List NewsItem),
      collectNews l sent = Except.ok r → ∀ item ∈ r, item.id ∉ sent := by
  intro l
  induction l with
  | nil =>
    intro sent r hr item hm
    simp only [collectNews] at hr
    injection hr with hr
    subst hr
    simp at hm
  | cons e rest ih =>
    intro sent r hr item hm
    simp only [collectNews] at hr
    by_cases hmem : entryId e ∈ sent
    · rw [if_pos hmem] at hr
      exact ih sent r hr item hm
    · rw [if_neg hmem] at hr
      cases hb : buildNewsItem e with
      | error msg => rw [hb] at hr; exact Except.noConfusion hr
      | ok it =>
        rw [hb] at hr
        cases hc : collectNews rest sent with
        | error msg => rw [hc] at hr; exact Except.noConfusion hr
        | ok tail =>
          rw [hc] at hr
          injection hr with hr
          subst hr
          rcases List.mem_cons.mp hm with rfl | hm'
          · rw [buildNewsItem_id e item hb]
            exact hmem
          · exact ih sent tail hc item hm'

/-- When every unsent entry of the slice is well-formed, the fetch loop
returns exactly the dedup-filtered slice, in order. -/
theorem collectNews_eq_ok :
    ∀ (l : List Entry) (sent : List String),
      (∀ e ∈ l, entryId e ∉ sent → mediaOk e) →
      collectNews l sent =
        Except.ok ((l.filter (fun e => decide (entryId e ∉ sent))).filterMap
          (fun e => (buildNewsItem e).toOption)) := by
  intro l
  induction l with
  | nil => intro sent _; rfl
  | cons e rest ih =>
    intro sent h
    simp only [collectNews]
    by_cases hmem : entryId e ∈ sent
    · rw [if_pos hmem, ih sent (fun x hx => h x (List.mem_cons_of_mem e hx))]
      congr 1
      rw [List.filter_cons]
      simp [hmem]
    · rw [if_neg hmem]
      have hok : mediaOk e := h e (List.mem_cons_self e rest) hmem
      unfold mediaOk at hok
      cases himg : entryImageUrl e with
      | error m => rw [himg] at hok; exact absurd hok (by simp)
      | ok img =>
        have hb : buildNewsItem e = Except.ok ⟨e.title, e.summary, img, entryId e⟩ := by
          unfold buildNewsItem
          rw [himg]
        rw [hb, ih sent (fun x hx => h x (List.mem_cons_of_mem e hx))]
        rw [List.filter_cons]
        simp [hmem, List.filterMap_cons, hb, Except.toOption]

/-- C1 (corrected): the claim reads the contract as "the at-most-3 newest feed
entries whose ids are absent from the set", i.e. filter by the dedup set
first, then take the newest 3 (`specFetch`). The code takes the 3 newest
entries first and only then filters (lines 62-66), so a feed whose 3 newest
entries were all sent yields nothing even when an older unsent entry exists:
at this concrete input `get_latest_news` returns `[]` while the claim's
reading returns the fourth entry. -/
theorem C1_counterexample :
    get_latest_news (Except.ok [⟨some "a", "la", "tA", "sA", none⟩,
        ⟨some "b", "lb", "tB", "sB", none⟩,
        ⟨some "c", "lc", "tC", "sC", none⟩,
        ⟨some "d", "ld", "tD", "sD", none⟩]) ["a", "b", "c"] = [] ∧
    specFetch [⟨some "a", "la", "tA", "sA", none⟩,
        ⟨some "b", "lb", "tB", "sB", none⟩,
        ⟨some "c", "lc", "tC", "sC", none⟩,
        ⟨some "d", "ld", "tD", "sD", none⟩] ["a", "b", "c"] =
      [⟨"tD", "sD", none, "d"⟩] ∧
    ([] : List NewsItem) ≠ [⟨"tD", "sD", none, "d"⟩] := by decide

/-- C1 (amended): `get_latest_news` returns the dedup-filtered prefix of the 3
newest feed entries — the entries among the first 3 whose ids are absent from
the dedup set, in feed order (older unsent entries are never considered) —
provided the unsent entries of that slice are well-formed in their media
field. -/
theorem C1_take3_then_filter (entries : List Entry) (sent : List String)
    (h : ∀ e ∈ entries.take 3, entryId e ∉ sent → mediaOk e) :
    get_latest_news (Except.ok entries) sent =
      ((entries.take 3).filter (fun e => decide (entryId e ∉ sent))).filterMap
        (fun e => (buildNewsItem e).toOption) := by
  cases entries with
  | nil => rfl
  | cons a l =>
    exact get_latest_news_loop_ok a l sent _ (collectNews_eq_ok _ _ h)

/-- Witness for C1 at a concrete feed and dedup state. -/
theorem C1_witness :
    get_latest_news (Except.ok [⟨some "x", "lx", "tX", "sX", none⟩,
        ⟨some "y", "ly", "tY", "sY", none⟩]) ["x"] =
      (([⟨some "x", "lx", "tX", "sX", none⟩,
          ⟨some "y", "ly", "tY", "sY", none⟩].take 3).filter
        (fun e => decide (entryId e ∉ ["x"]))).filterMap
        (fun e => (buildNewsItem e).toOption) :=
  C1_take3_then_filter _ ["x"] (by decide)

/-- C2: every item id already present in the dedup set when `get_latest_news`
runs is excluded from the returned candidate list (line 66). -/
theorem C2_dedup_excluded (parse : Except String (List Entry))
    (sent : List String) (item : NewsItem)
    (h : item ∈ get_latest_news parse sent) : item.id ∉ sent := by
  cases parse with
  | error msg => rw [get_latest_news_error] at h; simp at h
  | ok entries =>
    cases entries with
    | nil => rw [get_latest_news_ok_nil] at h; simp at h
    | cons a l =>
      cases hc : collectNews ((a :: l).take 3) sent with
      | error msg =>
        rw [get_latest_news_loop_error a l sent msg hc] at h
        simp at h
      | ok items =>
        rw [get_latest_news_loop_ok a l sent items hc] at h
        exact mem_collectNews_notSent ((a :: l).take 3) sent items hc item h

/-- Witness for C2: a concrete feed whose sole entry is unsent. -/
theorem C2_witness : (⟨"tY", "sY", none, "y"⟩ : NewsItem).id ∉ ["x"] :=
  C2_dedup_excluded (Except.ok [⟨some "y", "ly", "tY", "sY", none⟩]) ["x"]
    ⟨"tY", "sY", none, "y"⟩ (by decide)

/-- C4: on a raising parse or an empty feed, `get_latest_news` returns the
empty sequence; the surrounding handler (lines 56, 74-76) makes the embedded
function total, so no exception reaches the caller. -/
theorem C4_parse_failure_or_empty :
    (∀ (msg : String) (sent : List String),
      get_latest_news (Except.error msg) sent = []) ∧
    (∀ sent : List String, get_latest_news (Except.ok []) sent = []) :=
  ⟨fun _ _ => rfl, fun _ => rfl⟩

/-- C3: two sequential `send_to_channel` calls on items with the same id
perform at most one platform send in total; the second call re-checks
membership in the dedup set (line 80) and returns without sending, because
the first call inserted the id (line 84). -/
theorem C3_send_twice_at_most_once (i1 i2 : NewsItem) (sent : List String)
    (ok1 ok2 : Bool) (h : i1.id = i2.id) :
    (send_to_channel i1 sent ok1).actions.length +
      (send_to_channel i2 (send_to_channel i1 sent ok1).sent ok2).actions.length
      ≤ 1 := by
  by_cases h1 : i1.id ∈ sent
  · have h2 : i2.id ∈ (send_to_channel i1 sent ok1).sent := by
      rw [send_to_channel, if_pos h1, ← h]
      exact h1
    rw [send_to_channel, if_pos h1, send_to_channel]
    rw [send_to_channel, if_pos h1] at h2
    rw [if_pos h2]
    simp
  · have h2 : i2.id ∈ (send_to_channel i1 sent ok1).sent := by
      rw [send_to_channel, if_neg h1, ← h]
      exact List.mem_cons_self _ _
    rw [send_to_channel, if_neg h1, send_to_channel]
    rw [send_to_channel, if_neg h1] at h2
    rw [if_pos h2]
    simp

/-- Witness for C3: two items carrying the same id, fresh dedup set. -/
theorem C3_witness :
    (send_to_channel ⟨"t", "s", none, "i"⟩ [] true).actions.length +
      (send_to_channel ⟨"t2", "s2", none, "i"⟩
        (send_to_channel ⟨"t", "s", none, "i"⟩ [] true).sent true).actions.length
      ≤ 1 :=
  C3_send_twice_at_most_once ⟨"t", "s", none, "i"⟩ ⟨"t2", "s2", none, "i"⟩ []
    true true rfl

/-- C5 (counterexample): the claim says an item with `image_url` present is
sent as a photo, but `if news_item['image_url']:` (line 88) tests Python
truthiness: at this concrete item the `image_url` is present (the empty
string) yet a plain text message is sent, not a photo. -/
theorem C5_counterexample :
    (⟨"t", "s", some "", "i"⟩ : NewsItem).image_url.isSome = true ∧
    (send_to_channel ⟨"t", "s", some "", "i"⟩ [] true).actions =
      [SendAction.message ("t" ++ "\n\n" ++ "s")] := by decide

/-- C5 (amended): for an item not yet in the dedup set, an absent or empty
`image_url` yields one plain text message whose text is
`{title}\n\n{summary}`, and a present non-empty `image_url` yields one photo
send with that url and the caption `{title}\n\n{summary}`. -/
theorem C5_plain_or_photo (item : NewsItem) (sent : List String) (ok : Bool)
    (h : item.id ∉ sent) :
    ((item.image_url = none ∨ item.image_url = some "") →
      (send_to_channel item sent ok).actions =
        [SendAction.message (item.title ++ "\n\n" ++ item.summary)]) ∧
    (∀ u, item.image_url = some u → u ≠ "" →
      (send_to_channel item sent ok).actions =
        [SendAction.photo u (item.title ++ "\n\n" ++ item.summary)]) := by
  constructor
  · intro hu
    rw [send_to_channel, if_neg h]
    rcases hu with hu | hu <;> simp [sendActionFor, sendCaption, hu]
  · intro u hu hne
    rw [send_to_channel, if_neg h]
    simp [sendActionFor, sendCaption, hu, hne]

/-- Witness for C5: one item with a non-empty photo url, one without media. -/
theorem C5_witness :
    (send_to_channel ⟨"t", "s", some "u", "i"⟩ [] true).actions =
      [SendAction.photo "u" ("t" ++ "\n\n" ++ "s")] ∧
    (send_to_channel ⟨"t2", "s2", none, "j"⟩ [] true).actions =
      [SendAction.message ("t2" ++ "\n\n" ++ "s2")] :=
  ⟨(C5_plain_or_photo ⟨"t", "s", some "u", "i"⟩ [] true (by decide)).2 "u" rfl
      (by decide),
    (C5_plain_or_photo ⟨"t2", "s2", none, "j"⟩ [] true (by decide)).1
      (Or.inl rfl)⟩

/-- C6: when any of the three required environment variables is unset, the
module-level guard (lines 31-33) calls `exit(1)` — a non-zero status — and no
later action (bot construction, webhook registration, fetch or send) is
reached. -/
theorem C6_missing_env_exits (cfg : Config)
    (h : cfg.token = none ∨ cfg.channel = none ∨ cfg.webhookUrl = none) :
    moduleStartup cfg = (StartupOutcome.exit 1, []) ∧ (1 : Nat) ≠ 0 := by
  refine ⟨?_, by decide⟩
  have hg : configGuard cfg = StartupOutcome.exit 1 := by
    rw [configGuard]
    rcases h with h | h | h <;> simp [pyTruthyOptStr, h]
  rw [moduleStartup, hg]

/-- Witness for C6: the token variable unset, the others set. -/
theorem C6_witness :
    moduleStartup ⟨none, some "chan", some "https://example"⟩ =
      (StartupOutcome.exit 1, []) ∧ (1 : Nat) ≠ 0 :=
  C6_missing_env_exits ⟨none, some "chan", some "https://example"⟩ (Or.inl rfl)

/-- C7 (counterexample): the claim says `delete_webhook` is attempted exactly
once in every shutdown path; in the run where the port-availability check
fails, `main` returns at line 140, `runner.cleanup()` never runs, and the
process ends with zero `delete_webhook` attempts. -/
theorem C7_counterexample :
    deleteWebhookCount ⟨false, true, true, true⟩ = 0 ∧ (0 : Nat) ≠ 1 := by
  decide

/-- C7 (amended): `delete_webhook` is attempted at most once per run — never
twice — but the early-failure paths (port busy, socket bind failure,
`on_startup` failure) attempt it zero times. -/
theorem C7_delete_webhook_at_most_once (env : RunEnv) :
    deleteWebhookCount env ≤ 1 := by
  rcases env with ⟨p, b, s, st⟩
  cases p <;> cases b <;> cases s <;> cases st <;> decide

/-- C8: the id is inserted into the dedup set before the send attempt
(line 84), so after the call the id is in the set whether the platform send
succeeds or fails; the state change is identical in both outcomes (no
rollback), the failure is only logged, and the embedded function returns
normally in both cases (no re-raise). -/
theorem C8_inserted_before_send (item : NewsItem) (sent : List String)
    (ok : Bool) :
    item.id ∈ (send_to_channel item sent ok).sent ∧
    (send_to_channel item sent false).sent =
      (send_to_channel item sent true).sent ∧
    (item.id ∉ sent → (send_to_channel item sent false).errorLogged = true) := by
  by_cases h : item.id ∈ sent
  · simp [send_to_channel, h]
  · simp [send_to_channel, h]

/-- Witness for C8: a fresh item whose platform send fails. -/
theorem C8_witness :
    (⟨"t", "s", none, "i"⟩ : NewsItem).id ∈
      (send_to_channel ⟨"t", "s", none, "i"⟩ [] false).sent ∧
    (send_to_channel ⟨"t", "s", none, "i"⟩ [] false).sent =
      (send_to_channel ⟨"t", "s", none, "i"⟩ [] true).sent ∧
    (send_to_channel ⟨"t", "s", none, "i"⟩ [] false).errorLogged = true :=
  ⟨(C8_inserted_before_send ⟨"t", "s", none, "i"⟩ [] false).1,
    (C8_inserted_before_send ⟨"t", "s", none, "i"⟩ [] false).2.1,
    (C8_inserted_before_send ⟨"t", "s", none, "i"⟩ [] false).2.2 (by decide)⟩

/-- C9 (counterexample): the claim says the guid takes precedence over the
link whenever a guid field is present, but `entry.get('guid') or entry.link`
(line 65) falls through on a falsy guid: at this concrete entry the guid key
is present (the empty string) yet the item id is the link `"L"`, not the
guid. -/
theorem C9_counterexample :
    (⟨some "", "L", "t", "s", none⟩ : Entry).guid.isSome = true ∧
    buildNewsItem ⟨some "", "L", "t", "s", none⟩ =
      Except.ok ⟨"t", "s", none, "L"⟩ ∧
    "L" ≠ "" := ⟨rfl, rfl, by decide⟩

/-- C9 (amended): the item id is the feed-provided guid when the guid is
present and non-empty, and the entry's link when the guid is absent or the
empty string. -/
theorem C9_guid_precedence (e : Entry) (it : NewsItem)
    (h : buildNewsItem e = Except.ok it) :
    (∀ g, e.guid = some g → g ≠ "" → it.id = g) ∧
    ((e.guid = none ∨ e.guid = some "") → it.id = e.link) := by
  have hid : it.id = entryId e := buildNewsItem_id e it h
  constructor
  · intro g hg hne
    rw [hid, entryId, hg]
    simp [hne]
  · intro hg
    rcases hg with hg | hg
    · rw [hid, entryId, hg]
    · rw [hid, entryId, hg]
      simp

/-- Witness for C9: one entry with a non-empty guid, one without a guid. -/
theorem C9_witness :
    (⟨"t", "s", none, "g1"⟩ : NewsItem).id = "g1" ∧
    (⟨"t", "s", none, "L2"⟩ : NewsItem).id =
      (⟨none, "L2", "t", "s", none⟩ : Entry).link :=
  ⟨(C9_guid_precedence ⟨some "g1", "L1", "t", "s", none⟩ ⟨"t", "s", none, "g1"⟩
      rfl).1 "g1" rfl (by decide),
    (C9_guid_precedence ⟨none, "L2", "t", "s", none⟩ ⟨"t", "s", none, "L2"⟩
      rfl).2 (Or.inl rfl)⟩

/-- A malformed unsent entry anywhere in the slice makes the loop raise. -/
theorem collectNews_error_of_malformed :
    ∀ (l : List Entry) (sent : List String) (e : Entry), e ∈ l →
      entryId e ∉ sent → mediaOk e = false →
      ∃ msg, collectNews l sent = Except.error msg := by
  intro l
  induction l with
  | nil =>
    intro sent e he
    simp at he
  | cons a rest ih =>
    intro sent e he hns hmal
    simp only [collectNews]
    rcases List.mem_cons.mp he with rfl | he'
    · rw [if_neg hns]
      unfold mediaOk at hmal
      cases himg : entryImageUrl e with
      | error m =>
        have hb : buildNewsItem e = Except.error m := by
          unfold buildNewsItem
          rw [himg]
        rw [hb]
        exact ⟨m, rfl⟩
      | ok img => rw [himg] at hmal; exact absurd hmal (by simp)
    · by_cases hmem : entryId a ∈ sent
      · rw [if_pos hmem]
        exact ih sent e he' hns hmal
      · rw [if_neg hmem]
        cases hb : buildNewsItem a with
        | error m => exact ⟨m, rfl⟩
        | ok it =>
          rcases ih sent e he' hns hmal with ⟨m, hm⟩
          rw [hm]
          exact ⟨m, rfl⟩

/-- C10 (counterexample): the claim says any malformed entry among the 3
newest makes the whole cycle return `[]`; but the media access of line 70 is
only reached for entries whose id is not in the dedup set (line 66). At this
concrete input the first entry is malformed (`media_content` is an empty
list) yet already sent, so no exception is raised and the well-formed second
entry is returned — the result is not empty. -/
theorem C10_counterexample :
    mediaOk ⟨some "a", "la", "t", "s", some []⟩ = false ∧
    get_latest_news (Except.ok [⟨some "a", "la", "t", "s", some []⟩,
        ⟨some "b", "lb", "t2", "s2", none⟩]) ["a"] =
      [⟨"t2", "s2", none, "b"⟩] := by decide

/-- C10 (amended): if any of the (at most 3) newest feed entries whose id is
not already in the dedup set is malformed in its media field, the per-entry
exception is caught by the surrounding handler and `get_latest_news` returns
the empty list for the entire cycle, suppressing the well-formed candidates
too. -/
theorem C10_malformed_unsent_suppresses (entries : List Entry)
    (sent : List String) (e : Entry) (he : e ∈ entries.take 3)
    (hns : entryId e ∉ sent) (hmal : mediaOk e = false) :
    get_latest_news (Except.ok entries) sent = [] := by
  cases entries with
  | nil => simp at he
  | cons a l =>
    rcases collectNews_error_of_malformed ((a :: l).take 3) sent e he hns hmal
      with ⟨m, hm⟩
    exact get_latest_news_loop_error a l sent m hm

/-- Witness for C10: a single malformed unsent entry suppresses the cycle. -/
theorem C10_witness :
    get_latest_news (Except.ok [⟨some "a", "la", "t", "s", some []⟩,
        ⟨some "b", "lb", "t2", "s2", none⟩]) [] = [] :=
  C10_malformed_unsent_suppresses _ [] ⟨some "a", "la", "t", "s", some []⟩
    (by decide) (by decide) (by decide)

end CryptoBot
